import Mathlib

/-!
Shallow embedding of `src/train_lgbm.py`: a training job that loads a YAML
configuration, reads a parquet dataset, splits it with a fixed seed, runs a
randomized hyperparameter search over an imputer + LGBM pipeline, evaluates on
the held-out partition, and logs parameters, metrics and the best model to an
experiment tracker, all inside one tracked run.

External libraries (Spark, sklearn, lightgbm, mlflow) are modelled as follows:
pure numeric library routines (cross-validation scoring, prediction, ROC-AUC)
are abstract function parameters bundled in `Externals`; effectful calls
(dataset read, run open/close, every logging call, materialization to pandas)
are recorded in an explicit event trace; Spark's seeded `randomSplit` and
sklearn's seeded `ParameterSampler` are deterministic pseudo-random functions
of their seed, as the libraries guarantee for a fixed seed.
-/

namespace TrainLgbm

/-- A row of a tabular dataset: a valuation of column names. -/
abbrev Row := String → Rat

/-- A (Spark or pandas) data frame: a schema and a list of rows. -/
structure DataFrame where
  cols : List String
  rows : List Row

/-- `df.select(cs)`: keep exactly the columns `cs`. -/
def DataFrame.select (df : DataFrame) (cs : List String) : DataFrame :=
  ⟨cs, df.rows⟩

/-- `df.drop(cs, axis=1)`: remove the columns `cs`. -/
def DataFrame.dropCols (df : DataFrame) (cs : List String) : DataFrame :=
  ⟨df.cols.filter (fun c => decide (c ∉ cs)), df.rows⟩

/-- A linear congruential generator standing in for the library PRNG. -/
def lcg (n : Nat) : Nat := (1103515245 * n + 12345) % 2147483648

/-- Deterministic pseudo-random draw in [0,1) for row `i` under `seed`,
modelling the per-row uniform draw of Spark `randomSplit`. -/
def sparkRand (seed i : Nat) : Rat := (lcg (seed + i) : Rat) / 2147483648

/-- Spark `df.randomSplit([p, 1-p], seed)`: each row goes to the first split
iff its seeded pseudo-random draw is below `p`; deterministic in `(df, p, seed)`. -/
def randomSplit (df : DataFrame) (p : Rat) (seed : Nat) : DataFrame × DataFrame :=
  (⟨df.cols, (df.rows.enum.filter (fun ia => decide (sparkRand seed ia.1 < p))).map Prod.snd⟩,
   ⟨df.cols, (df.rows.enum.filter (fun ia => !decide (sparkRand seed ia.1 < p))).map Prod.snd⟩)

/-- Lines 36-37 of `train_lgbm.py`: split `loans_df` with weights
`[split_prop, 1 - split_prop]` and the fixed seed 7. -/
def splitStep (loans : DataFrame) (split_prop : Rat) : DataFrame × DataFrame :=
  randomSplit loans split_prop 7

theorem splitStep_perm (loans : DataFrame) (p : Rat) :
    ((splitStep loans p).1.rows ++ (splitStep loans p).2.rows).Perm loans.rows := by
  have h := List.filter_append_perm
    (fun ia : Nat × Row => decide (sparkRand 7 ia.1 < p)) loans.rows.enum
  have h2 := h.map Prod.snd
  simpa [splitStep, randomSplit, List.map_append, List.enum_map_snd] using h2

/-- The `parameter_space` mapping of the YAML config: one candidate list per
hyperparameter dimension (lines 57-63 read exactly these six sub-keys). -/
structure ParamSpace where
  max_depth : List Rat
  gamma : List Rat
  min_child_weight : List Rat
  learning_rate : List Rat
  colsample_bytree : List Rat
  num_leaves : List Rat
  deriving DecidableEq

/-- The loaded YAML mapping: each required key may be absent
(`loaded_config[k]` on an absent key raises `KeyError`). -/
structure RawConfig where
  features : Option (List String)
  target : Option (List String)
  parameter_space : Option ParamSpace

/-- Errors the job can surface: a missing config key (Python `KeyError`),
an unreadable dataset, or a failed search/fit. -/
inductive Err where
  | keyError (k : String)
  | dataAccessError
  | fitError
  | argError (msg : String)
  deriving DecidableEq

/-- Python `loaded_config[k]`: returns the value or raises `KeyError k`. -/
def getKey {α : Type} (o : Option α) (k : String) : Except Err α :=
  match o with
  | some v => Except.ok v
  | none => Except.error (Err.keyError k)

/-- One sampled point of the hyperparameter grid: one value per grid key. -/
abbrev Combo := List (String × Rat)

/-- Lines 58-64: the search grid handed to `RandomizedSearchCV`. The config's
`gamma` values are filed under the estimator parameter `min_split_gain`, and
every key is prefixed with the double underscore addressing the pipeline stage
whose name is the empty string. -/
def mkParamGrid (ps : ParamSpace) : List (String × List Rat) :=
  [( "__max_depth", ps.max_depth),
   ( "__min_split_gain", ps.gamma),
   ( "__min_child_weight", ps.min_child_weight),
   ( "__learning_rate", ps.learning_rate),
   ( "__colsample_bytree", ps.colsample_bytree),
   ( "__num_leaves", ps.num_leaves)]

/-- All combinations of the grid: the cartesian product of the candidate
lists, each combination keyed like the grid. -/
def gridCombos : List (String × List Rat) → List Combo
  | [] => [[]]
  | (k, vs) :: rest => (gridCombos rest).flatMap fun c => vs.map fun v => (k, v) :: c

/-- sklearn's `ParameterSampler` on all-list distributions: when the full grid
has at most `n_iter` points it is used whole; otherwise a seed-determined
sample of `n_iter` distinct grid points is drawn (modelled as a seeded
rotation followed by `take`). -/
def parameterSampler (grid : List (String × List Rat)) (n_iter seed : Nat) : List Combo :=
  let all := gridCombos grid
  if all.length ≤ n_iter then all
  else (all.rotate (lcg seed % all.length)).take n_iter

/-- Pick the element of the list maximizing `f` (the library's argmax over
fold order); `none` on the empty list. -/
def argmaxBy {α : Type} (f : α → Rat) : List α → Option α
  | [] => none
  | x :: xs => some (xs.foldl (fun b a => if f b < f a then a else b) x)

/-- Line 55: `lgb.LGBMClassifier(n_jobs=2)`. -/
structure LGBMClassifier where
  n_jobs : Nat

/-- The `str(lgbm)` representation used to name the logged artifact. -/
def LGBMClassifier.reprStr (c : LGBMClassifier) : String :=
  "LGBMClassifier(n_jobs=" ++ toString c.n_jobs ++ ")"

/-- The fitted search result: `best_params_` and `best_score_`
(the mean cross-validated score of the best candidate). -/
structure CVModel where
  best_params : Combo
  best_score : Rat
  deriving DecidableEq

/-- The `RandomizedSearchCV` object as constructed on lines 69-75. -/
structure RandomizedSearchCV where
  param_grid : List (String × List Rat)
  scoring : String
  n_jobs : Nat
  n_iter : Nat
  random_state : Nat
  cv : Nat

/-- `crossval.fit(X, y)`: sample the grid with the configured `n_iter` and
`random_state`, score every sampled combination with the (library-computed)
mean cross-validated score `score`, and keep the best; an empty grid is a
library fit failure. -/
def RandomizedSearchCV.fit (rs : RandomizedSearchCV) (score : Combo → Rat) :
    Except Err CVModel :=
  match argmaxBy score (parameterSampler rs.param_grid rs.n_iter rs.random_state) with
  | some best => Except.ok ⟨best, score best⟩
  | none => Except.error Err.fitError

/-- Lines 69-75: the concrete searcher the script builds — `scoring='roc_auc'`,
`n_jobs=4`, `n_iter=100`, `random_state=seed` (seed is 7), `cv=5`. -/
def mkCrossval (ps : ParamSpace) : RandomizedSearchCV :=
  { param_grid := mkParamGrid ps
    scoring := "roc_auc"
    n_jobs := 4
    n_iter := 100
    random_state := 7
    cv := 5 }

/-- Observable effects of one invocation, in program order: the parquet read,
the mlflow run open/close, every mlflow logging call, and the
materialization of a partition to an in-memory (pandas) table. -/
inductive Event where
  | readDataset (uri : String)
  | openRun
  | closeRun
  | logMetric (name : String) (value : Rat)
  | logParamFeatures (value : List String)
  | logParamRat (name : String) (value : Rat)
  | logModel (name : String)
  | toPandas (cols : List String)
  deriving DecidableEq

/-- Logging calls (metrics, params, model) as opposed to run control or data
movement. -/
def Event.isLog : Event → Bool
  | .logMetric _ _ => true
  | .logParamFeatures _ => true
  | .logParamRat _ _ => true
  | .logModel _ => true
  | _ => false

/-- Model-artifact logging calls. -/
def Event.isModelLog : Event → Bool
  | .logModel _ => true
  | _ => false

/-- The external library routines the script delegates to, kept abstract:
the parquet reader, the mean cross-validated scorer of a pipeline candidate
on `(X, y)`, the best estimator's prediction on a feature table, and
`roc_auc_score`. -/
structure Externals where
  readParquet : String → Except Err DataFrame
  cvScore : DataFrame → List Rat → Combo → Rat
  predict : Combo → DataFrame → List Rat
  rocAuc : List Rat → List Rat → Rat

/-- `df[target].values.ravel()`: the target column values of every row,
flattened row-major. -/
def targetValues (df : DataFrame) (target : List String) : List Rat :=
  df.rows.flatMap fun r => target.map r

/-- Lines 49 and 53: the in-memory tables built for both partitions by
`select(features + target).toPandas()` on the split produced by `splitStep`. -/
def materialized (loans : DataFrame) (split_prop : Rat) (features target : List String) :
    DataFrame × DataFrame :=
  ((splitStep loans split_prop).1.select (features ++ target),
   (splitStep loans split_prop).2.select (features ++ target))

/-- The characters of `s` before the first `(`. -/
def takeUntilParen : List Char → List Char
  | [] => []
  | c :: cs => if c = '(' then [] else c :: takeUntilParen cs

/-- Python `s.split('(')[0]`: the part of `s` before the first `(`. -/
def headBeforeParen (s : String) : String := String.mk (takeUntilParen s.data)

/-- Lines 85-87: the artifact name
`"best-5-fold-cross-validated-{str(lgbm).split('(')[0]}"`. -/
def modelArtifactName : String :=
  "best-5-fold-cross-validated-" ++ headBeforeParen (LGBMClassifier.reprStr ⟨2⟩)

/-- `with mlflow.start_run() as run:` — the body's effects are bracketed by
the run open and close, and the close happens on every exit path, error
included. -/
def withRun {α : Type} (body : List Event × Except Err α) : List Event × Except Err α :=
  (Event.openRun :: body.1 ++ [Event.closeRun], body.2)

/-- Lines 42-108, the body of the `with mlflow.start_run()` block: log the
row counts, materialize the two column-pruned tables, read
`parameter_space`, build the grid and searcher, log `features` and
`split_prop`, fit, log the best model artifact, predict on the held-out
features, compute and log both ROC-AUC metrics, log every best parameter,
and return the fitted search object. -/
def runBody (ext : Externals) (cfg : RawConfig) (split_prop : Rat)
    (features target : List String) (train_df0 test_df0 : DataFrame) :
    List Event × Except Err CVModel :=
  let train_df := train_df0.select (features ++ target)
  let test_df := test_df0.select (features ++ target)
  let ev0 : List Event :=
    [Event.logMetric "training_nrows" (train_df0.rows.length : Rat),
     Event.logMetric "test_nrows" (test_df0.rows.length : Rat),
     Event.toPandas train_df.cols,
     Event.toPandas test_df.cols]
  match getKey cfg.parameter_space "parameter_space" with
  | Except.error e => (ev0, Except.error e)
  | Except.ok ps =>
    let crossval := mkCrossval ps
    let ev1 := ev0 ++ [Event.logParamFeatures features, Event.logParamRat "split_prop" split_prop]
    match crossval.fit (ext.cvScore (train_df.dropCols target) (targetValues train_df target)) with
    | Except.error e => (ev1, Except.error e)
    | Except.ok cvModel =>
      let ev2 := ev1 ++ [Event.logModel modelArtifactName]
      let y_pred := ext.predict cvModel.best_params (test_df.dropCols target)
      let test_roc := ext.rocAuc (targetValues test_df target) y_pred
      let ev3 := ev2 ++ [Event.logMetric "ROC_AUC_train" cvModel.best_score,
                         Event.logMetric "ROC_AUC_test" test_roc]
      let ev4 := ev3 ++ cvModel.best_params.map fun kv => Event.logParamRat kv.1 kv.2
      (ev4, Except.ok cvModel)

/-- `fit_sklearn_crossvalidator(loans_parquet_uri, config, split_prop)`:
read the required config keys (lines 30-31), read the parquet dataset
(line 35), split it with seed 7 (lines 36-37), then run the tracked-run body.
Returns the event trace together with the result. -/
def fitSklearnCrossvalidator (ext : Externals) (loans_parquet_uri : String)
    (cfg : RawConfig) (split_prop : Rat) : List Event × Except Err CVModel :=
  match getKey cfg.features "features" with
  | Except.error e => ([], Except.error e)
  | Except.ok features =>
    match getKey cfg.target "target" with
    | Except.error e => ([], Except.error e)
    | Except.ok target =>
      match ext.readParquet loans_parquet_uri with
      | Except.error e => ([Event.readDataset loans_parquet_uri], Except.error e)
      | Except.ok loans_df =>
        let parts := splitStep loans_df split_prop
        let res := withRun (runBody ext cfg split_prop features target parts.1 parts.2)
        (Event.readDataset loans_parquet_uri :: res.1, res.2)

/-- The parsed argparse namespace: `loans_parquet_uri` has no default (None),
`config` defaults to `config.yaml`, `split_prop` defaults to 0.8. -/
structure Args where
  loans_parquet_uri : Option String
  config : String
  split_prop : Rat
  deriving DecidableEq

/-- The namespace before any argument is applied: every option at its
`add_argument` default. -/
def defaultArgs : Args := ⟨none, "config.yaml", 4/5⟩

/-- Lines 111-114 argparse semantics for one `flag value` pair: the three
declared options store their value (`-s` through the `float` conversion
`floatOf`, whose failure is argparse's type error); any other flag is an
unrecognized-argument error. None of the three options was declared
`required`. -/
def applyArg (floatOf : String → Option Rat) (a : Args) (kv : String × String) :
    Except Err Args :=
  if kv.1 = "-u" ∨ kv.1 = "--loans_parquet_uri" then
    Except.ok { a with loans_parquet_uri := some kv.2 }
  else if kv.1 = "-c" ∨ kv.1 = "--config" then
    Except.ok { a with config := kv.2 }
  else if kv.1 = "-s" ∨ kv.1 = "--split_prop" then
    match floatOf kv.2 with
    | some r => Except.ok { a with split_prop := r }
    | none => Except.error (Err.argError "split_prop")
  else Except.error (Err.argError kv.1)

/-- `parser.parse_args(argv)` over flag/value pairs: fold the arguments over
the defaults; since no option is `required`, there is no post-scan
missing-argument check. -/
def argparseParse (floatOf : String → Option Rat) (argv : List (String × String)) :
    Except Err Args :=
  argv.foldl (fun ea kv => ea.bind fun a => applyArg floatOf a kv) (Except.ok defaultArgs)

/-- A concrete row for witnesses. -/
def rowEx : Row := fun _ => 0

/-- A concrete three-row dataset for witnesses. -/
def loansEx : DataFrame := ⟨[ "f1", "f2", "y"], [rowEx, rowEx, rowEx]⟩

/-- Concrete externals for witnesses: the read succeeds with `loansEx`,
scoring is constant, prediction is constant zero, ROC-AUC is constant. -/
def extEx : Externals :=
  { readParquet := fun _ => Except.ok loansEx
    cvScore := fun _ _ _ => 0
    predict := fun _ df => df.rows.map fun _ => 0
    rocAuc := fun _ _ => 1/2 }

/-- A concrete one-point parameter space for witnesses. -/
def psEx : ParamSpace := ⟨[3], [0], [1], [1/10], [1], [31]⟩

/-- A concrete complete configuration for witnesses. -/
def cfgEx : RawConfig := ⟨some [ "f1", "f2"], some [ "y"], some psEx⟩

/-- A concrete configuration missing the `target` key. -/
def cfgNoTarget : RawConfig := ⟨some [ "f1", "f2"], none, some psEx⟩

/-- The single grid point of `psEx`. -/
def comboEx : Combo :=
  [( "__max_depth", 3), ( "__min_split_gain", 0), ( "__min_child_weight", 1),
   ( "__learning_rate", 1/10), ( "__colsample_bytree", 1), ( "__num_leaves", 31)]

/-- The search result on `psEx` under the constant scorer. -/
def mEx : CVModel := ⟨comboEx, 0⟩

/-- The constant scorer used in witnesses. -/
def scoreEx : Combo → Rat := fun _ => 0

lemma foldl_pick_mem {α : Type} (f : α → Rat) :
    ∀ (l : List α) (x : α), l.foldl (fun b a => if f b < f a then a else b) x ∈ x :: l := by
  intro l
  induction l with
  | nil => intro x; simp
  | cons a l ih =>
    intro x
    simp only [List.foldl_cons]
    rcases List.mem_cons.mp (ih (if f x < f a then a else x)) with h1 | h1
    · rw [h1]
      split <;> simp
    · exact List.mem_cons_of_mem _ (List.mem_cons_of_mem _ h1)

lemma foldl_pick_ge {α : Type} (f : α → Rat) :
    ∀ (l : List α) (x y : α), y ∈ x :: l →
      f y ≤ f (l.foldl (fun b a => if f b < f a then a else b) x) := by
  intro l
  induction l with
  | nil =>
    intro x y hy
    rcases List.mem_cons.mp hy with h | h
    · subst h; simp
    · simp at h
  | cons a l ih =>
    intro x y hy
    simp only [List.foldl_cons]
    have hx : f x ≤ f (if f x < f a then a else x) := by
      split
      · exact le_of_lt (by assumption)
      · exact le_refl _
    have ha : f a ≤ f (if f x < f a then a else x) := by
      split
      · exact le_refl _
      · exact le_of_not_lt (by assumption)
    have hrec := ih (if f x < f a then a else x) _ (List.mem_cons_self _ _)
    rcases List.mem_cons.mp hy with h1 | h1
    · subst h1; exact le_trans hx hrec
    rcases List.mem_cons.mp h1 with h2 | h2
    · subst h2; exact le_trans ha hrec
    · exact ih _ y (List.mem_cons_of_mem _ h2)

lemma argmaxBy_mem {α : Type} {f : α → Rat} {l : List α} {x : α}
    (h : argmaxBy f l = some x) : x ∈ l := by
  cases l with
  | nil => simp [argmaxBy] at h
  | cons a l =>
    simp only [argmaxBy, Option.some.injEq] at h
    subst h
    exact foldl_pick_mem f l a

lemma argmaxBy_ge {α : Type} {f : α → Rat} {l : List α} {x : α}
    (h : argmaxBy f l = some x) : ∀ y ∈ l, f y ≤ f x := by
  cases l with
  | nil => simp
  | cons a l =>
    simp only [argmaxBy, Option.some.injEq] at h
    subst h
    intro y hy
    exact foldl_pick_ge f l a y hy

lemma mem_gridCombos :
    ∀ {g : List (String × List Rat)} {c : Combo}, c ∈ gridCombos g →
      c.map Prod.fst = g.map Prod.fst ∧
      ∀ kv ∈ c, ∃ e ∈ g, kv.1 = e.1 ∧ kv.2 ∈ e.2 := by
  intro g
  induction g with
  | nil =>
    intro c hc
    simp only [gridCombos, List.mem_singleton] at hc
    subst hc
    simp
  | cons e rest ih =>
    intro c hc
    obtain ⟨k, vs⟩ := e
    simp only [gridCombos, List.mem_flatMap, List.mem_map] at hc
    obtain ⟨c0, hc0, v, hv, hceq⟩ := hc
    subst hceq
    obtain ⟨hkeys, hvals⟩ := ih hc0
    refine ⟨by simp [hkeys], ?_⟩
    intro kv hkv
    rcases List.mem_cons.mp hkv with h1 | h1
    · subst h1
      exact ⟨(k, vs), List.mem_cons_self _ _, rfl, hv⟩
    · obtain ⟨e2, he2, h⟩ := hvals kv h1
      exact ⟨e2, List.mem_cons_of_mem _ he2, h⟩

lemma parameterSampler_subset (g : List (String × List Rat)) (n s : Nat) :
    ∀ c ∈ parameterSampler g n s, c ∈ gridCombos g := by
  intro c hc
  simp only [parameterSampler] at hc
  split at hc
  · exact hc
  · exact (List.mem_rotate).mp (List.take_subset _ _ hc)

lemma parameterSampler_le (g : List (String × List Rat)) (n s : Nat) :
    (parameterSampler g n s).length ≤ n := by
  simp only [parameterSampler]
  split
  · assumption
  · simp [List.length_take]

lemma fit_ok {rs : RandomizedSearchCV} {score : Combo → Rat} {m : CVModel}
    (h : rs.fit score = Except.ok m) :
    m.best_params ∈ parameterSampler rs.param_grid rs.n_iter rs.random_state ∧
    m.best_score = score m.best_params ∧
    ∀ c ∈ parameterSampler rs.param_grid rs.n_iter rs.random_state,
      score c ≤ score m.best_params := by
  unfold RandomizedSearchCV.fit at h
  cases hm : argmaxBy score (parameterSampler rs.param_grid rs.n_iter rs.random_state) with
  | none => rw [hm] at h; simp at h
  | some best =>
    rw [hm] at h
    simp only [Except.ok.injEq] at h
    subst h
    exact ⟨argmaxBy_mem hm, rfl, argmaxBy_ge hm⟩

/-- The event trace of a fully successful invocation, in program order. -/
def successTrace (uri : String) (features target : List String) (split_prop : Rat)
    (ntrain ntest : Rat) (m : CVModel) (test_roc : Rat) : List Event :=
  Event.readDataset uri :: Event.openRun ::
    Event.logMetric "training_nrows" ntrain ::
    Event.logMetric "test_nrows" ntest ::
    Event.toPandas (features ++ target) ::
    Event.toPandas (features ++ target) ::
    Event.logParamFeatures features ::
    Event.logParamRat "split_prop" split_prop ::
    Event.logModel modelArtifactName ::
    Event.logMetric "ROC_AUC_train" m.best_score ::
    Event.logMetric "ROC_AUC_test" test_roc ::
    ((m.best_params.map fun kv => Event.logParamRat kv.1 kv.2) ++ [Event.closeRun])

lemma run_success_eq (ext : Externals) (uri : String) (cfg : RawConfig) (p : Rat)
    (features target : List String) (ps : ParamSpace) (loans : DataFrame) (m : CVModel)
    (hf : cfg.features = some features) (ht : cfg.target = some target)
    (hps : cfg.parameter_space = some ps)
    (hread : ext.readParquet uri = Except.ok loans)
    (hfit : (mkCrossval ps).fit
        (ext.cvScore (((splitStep loans p).1.select (features ++ target)).dropCols target)
          (targetValues ((splitStep loans p).1.select (features ++ target)) target)) =
      Except.ok m) :
    fitSklearnCrossvalidator ext uri cfg p =
      (successTrace uri features target p
        ((splitStep loans p).1.rows.length : Rat) ((splitStep loans p).2.rows.length : Rat) m
        (ext.rocAuc (targetValues ((splitStep loans p).2.select (features ++ target)) target)
          (ext.predict m.best_params
            (((splitStep loans p).2.select (features ++ target)).dropCols target))),
       Except.ok m) := by
  obtain ⟨cf, ct, cps⟩ := cfg
  simp only at hf ht hps
  subst hf
  subst ht
  subst hps
  simp only [DataFrame.select] at hfit
  simp only [fitSklearnCrossvalidator, runBody, withRun, getKey, hread, successTrace,
    DataFrame.select]
  rw [hfit]
  simp

lemma not_mem_map_logParamRat {e : Event} (h : ∀ n v, e ≠ Event.logParamRat n v)
    (l : Combo) : e ∉ l.map fun kv => Event.logParamRat kv.1 kv.2 := by
  intro hm
  obtain ⟨kv, _, heq⟩ := List.mem_map.mp hm
  exact h kv.1 kv.2 heq.symm

lemma filter_isModelLog_map (l : Combo) :
    (l.map fun kv => Event.logParamRat kv.1 kv.2).filter Event.isModelLog = [] := by
  induction l with
  | nil => rfl
  | cons kv l ih => simpa [Event.isModelLog] using ih

lemma openRun_not_mem_runBody (ext : Externals) (cfg : RawConfig) (p : Rat)
    (features target : List String) (d0 d1 : DataFrame) :
    Event.openRun ∉ (runBody ext cfg p features target d0 d1).1 := by
  intro he
  simp only [runBody] at he
  split at he
  · simp at he
  · split at he
    · simp at he
    · simp at he

lemma closeRun_not_mem_runBody (ext : Externals) (cfg : RawConfig) (p : Rat)
    (features target : List String) (d0 d1 : DataFrame) :
    Event.closeRun ∉ (runBody ext cfg p features target d0 d1).1 := by
  intro he
  simp only [runBody] at he
  split at he
  · simp at he
  · split at he
    · simp at he
    · simp at he

lemma toPandas_mem_runBody (ext : Externals) (cfg : RawConfig) (p : Rat)
    (features target : List String) (d0 d1 : DataFrame) :
    Event.toPandas (features ++ target) ∈ (runBody ext cfg p features target d0 d1).1 ∧
    ∀ cs, Event.toPandas cs ∈ (runBody ext cfg p features target d0 d1).1 →
      cs = features ++ target := by
  constructor
  · simp only [runBody, DataFrame.select]
    split
    · simp
    · split <;> simp
  · intro cs he
    simp only [runBody, DataFrame.select] at he
    split at he
    · simp at he
      exact he
    · split at he
      · simp at he
        exact he
      · simp at he
        exact he

/-- C1: the train/test split of `fit_sklearn_crossvalidator` is a deterministic
function of the dataset and `split_prop` — the seed is fixed at 7 — so two runs
on identical inputs produce the identical partition of the dataset rows. -/
theorem claim_C1_split_deterministic (ext : Externals) (uri : String) (cfg : RawConfig)
    (loans : DataFrame) (p : Rat) :
    fitSklearnCrossvalidator ext uri cfg p = fitSklearnCrossvalidator ext uri cfg p ∧
    splitStep loans p = randomSplit loans p 7 ∧
    ((splitStep loans p).1.rows ++ (splitStep loans p).2.rows).Perm loans.rows :=
  ⟨rfl, rfl, splitStep_perm loans p⟩

/-- C2: the randomized search evaluates at most 100 sampled combinations, and
every key/value of the selected `best_params_` comes from the declared
candidate sequence of that grid key. -/
theorem claim_C2_search_bounds (ps : ParamSpace) (score : Combo → Rat) (m : CVModel)
    (h : (mkCrossval ps).fit score = Except.ok m) :
    (parameterSampler (mkParamGrid ps) 100 7).length ≤ 100 ∧
    ∀ kv ∈ m.best_params, ∃ vs, (kv.1, vs) ∈ mkParamGrid ps ∧ kv.2 ∈ vs := by
  have hb := fit_ok h
  refine ⟨parameterSampler_le _ _ _, ?_⟩
  intro kv hkv
  have hg := parameterSampler_subset _ _ _ _ hb.1
  obtain ⟨_, hvals⟩ := mem_gridCombos hg
  obtain ⟨e, he, h1, h2⟩ := hvals kv hkv
  refine ⟨e.2, ?_, h2⟩
  rw [h1]
  exact he

theorem claim_C2_witness :
    (mkCrossval psEx).fit scoreEx = Except.ok mEx ∧
    ((parameterSampler (mkParamGrid psEx) 100 7).length ≤ 100 ∧
      ∀ kv ∈ mEx.best_params, ∃ vs, (kv.1, vs) ∈ mkParamGrid psEx ∧ kv.2 ∈ vs) :=
  ⟨rfl, claim_C2_search_bounds psEx scoreEx mEx rfl⟩

/-- C3: a configuration missing the `target` (or `features`) key makes
`fit_sklearn_crossvalidator` fail with a key error, and the dataset at
`loans_parquet_uri` is never read: no read event occurs in the trace. -/
theorem claim_C3_config_error_before_read (ext : Externals) (uri : String)
    (cfg : RawConfig) (p : Rat) (h : cfg.target = none ∨ cfg.features = none) :
    (∃ k, (fitSklearnCrossvalidator ext uri cfg p).2 = Except.error (Err.keyError k)) ∧
    ∀ u, Event.readDataset u ∉ (fitSklearnCrossvalidator ext uri cfg p).1 := by
  obtain ⟨cf, ct, cps⟩ := cfg
  simp only at h
  rcases h with h | h
  · subst h
    cases cf with
    | none =>
      refine ⟨⟨ "features", rfl⟩, ?_⟩
      intro u hu
      simp [fitSklearnCrossvalidator, getKey] at hu
    | some fs =>
      refine ⟨⟨ "target", rfl⟩, ?_⟩
      intro u hu
      simp [fitSklearnCrossvalidator, getKey] at hu
  · subst h
    refine ⟨⟨ "features", rfl⟩, ?_⟩
    intro u hu
    simp [fitSklearnCrossvalidator, getKey] at hu

theorem claim_C3_witness :
    (cfgNoTarget.target = none ∨ cfgNoTarget.features = none) ∧
    ((∃ k, (fitSklearnCrossvalidator extEx "dbfs:loans" cfgNoTarget (4/5)).2 =
        Except.error (Err.keyError k)) ∧
      ∀ u, Event.readDataset u ∉ (fitSklearnCrossvalidator extEx "dbfs:loans" cfgNoTarget (4/5)).1) :=
  ⟨Or.inl rfl, claim_C3_config_error_before_read extEx "dbfs:loans" cfgNoTarget (4/5) (Or.inl rfl)⟩

/-- C4: the search is configured with `n_iter=100`, `cv=5`, ROC-AUC scoring and
random state 7, and on success the selected model maximizes the (mean
cross-validated) score over the sampled combinations, with `best_score_` the
score of the selected combination. -/
theorem claim_C4_search_config (ps : ParamSpace) (score : Combo → Rat) (m : CVModel)
    (h : (mkCrossval ps).fit score = Except.ok m) :
    (mkCrossval ps).n_iter = 100 ∧ (mkCrossval ps).cv = 5 ∧
    (mkCrossval ps).scoring = "roc_auc" ∧ (mkCrossval ps).random_state = 7 ∧
    m.best_params ∈ parameterSampler (mkParamGrid ps) 100 7 ∧
    m.best_score = score m.best_params ∧
    ∀ c ∈ parameterSampler (mkParamGrid ps) 100 7, score c ≤ score m.best_params := by
  have hb := fit_ok h
  exact ⟨rfl, rfl, rfl, rfl, hb.1, hb.2.1, hb.2.2⟩

theorem claim_C4_witness :
    (mkCrossval psEx).fit scoreEx = Except.ok mEx ∧
    ((mkCrossval psEx).n_iter = 100 ∧ (mkCrossval psEx).cv = 5 ∧
      (mkCrossval psEx).scoring = "roc_auc" ∧ (mkCrossval psEx).random_state = 7 ∧
      mEx.best_params ∈ parameterSampler (mkParamGrid psEx) 100 7 ∧
      mEx.best_score = scoreEx mEx.best_params ∧
      ∀ c ∈ parameterSampler (mkParamGrid psEx) 100 7, scoreEx c ≤ scoreEx mEx.best_params) :=
  ⟨rfl, claim_C4_search_config psEx scoreEx mEx rfl⟩

/-- C5 as stated is false: `-u` (long form `--loans_parquet_uri`) is declared without
`required=True`, so parsing an invocation that omits `-u` succeeds (with
`loans_parquet_uri = None` and the other defaults) instead of being
rejected. -/
theorem claim_C5_counterexample :
    argparseParse (fun _ => none) [] = Except.ok ⟨none, "config.yaml", 4/5⟩ ∧
    ∀ e, argparseParse (fun _ => none) [] ≠ Except.error e := by
  refine ⟨rfl, ?_⟩
  intro e h
  simp [argparseParse, List.foldl] at h

/-- C5 (amended): the CLI accepts `-u` (long form `--loans_parquet_uri`) (optional — omitting
it is not rejected and leaves the value `None`), `-c` (long form `--config`) defaulting to
`config.yaml`, and `-s` (long form `--split_prop`) a float defaulting to 0.8. -/
theorem claim_C5_cli (floatOf : String → Option Rat) (u c v : String) (r : Rat)
    (h : floatOf v = some r) :
    argparseParse floatOf [] = Except.ok ⟨none, "config.yaml", 4/5⟩ ∧
    argparseParse floatOf [( "-u", u)] = Except.ok ⟨some u, "config.yaml", 4/5⟩ ∧
    argparseParse floatOf [( "--loans_parquet_uri", u)] = Except.ok ⟨some u, "config.yaml", 4/5⟩ ∧
    argparseParse floatOf [( "-c", c)] = Except.ok ⟨none, c, 4/5⟩ ∧
    argparseParse floatOf [( "--config", c)] = Except.ok ⟨none, c, 4/5⟩ ∧
    argparseParse floatOf [( "-s", v)] = Except.ok ⟨none, "config.yaml", r⟩ ∧
    argparseParse floatOf [( "--split_prop", v)] = Except.ok ⟨none, "config.yaml", r⟩ := by
  refine ⟨rfl, rfl, rfl, rfl, rfl, ?_, ?_⟩
  · rw [show argparseParse floatOf [( "-s", v)] =
        (match floatOf v with
         | some r2 => Except.ok ⟨none, "config.yaml", r2⟩
         | none => Except.error (Err.argError "split_prop")) from rfl, h]
  · rw [show argparseParse floatOf [( "--split_prop", v)] =
        (match floatOf v with
         | some r2 => Except.ok ⟨none, "config.yaml", r2⟩
         | none => Except.error (Err.argError "split_prop")) from rfl, h]

theorem claim_C5_witness :
    (fun _ : String => some (1/2 : Rat)) "0.5" = some (1/2 : Rat) ∧
    (argparseParse (fun _ => some (1/2 : Rat)) [] = Except.ok ⟨none, "config.yaml", 4/5⟩ ∧
      argparseParse (fun _ => some (1/2 : Rat)) [( "-u", "x")] =
        Except.ok ⟨some "x", "config.yaml", 4/5⟩ ∧
      argparseParse (fun _ => some (1/2 : Rat)) [( "--loans_parquet_uri", "x")] =
        Except.ok ⟨some "x", "config.yaml", 4/5⟩ ∧
      argparseParse (fun _ => some (1/2 : Rat)) [( "-c", "other.yaml")] =
        Except.ok ⟨none, "other.yaml", 4/5⟩ ∧
      argparseParse (fun _ => some (1/2 : Rat)) [( "--config", "other.yaml")] =
        Except.ok ⟨none, "other.yaml", 4/5⟩ ∧
      argparseParse (fun _ => some (1/2 : Rat)) [( "-s", "0.5")] =
        Except.ok ⟨none, "config.yaml", 1/2⟩ ∧
      argparseParse (fun _ => some (1/2 : Rat)) [( "--split_prop", "0.5")] =
        Except.ok ⟨none, "config.yaml", 1/2⟩) :=
  ⟨rfl, claim_C5_cli (fun _ => some (1/2 : Rat)) "x" "other.yaml" "0.5" (1/2) rfl⟩

lemma count_openRun_successTrace (uri : String) (features target : List String)
    (p a b roc : Rat) (m : CVModel) :
    (successTrace uri features target p a b m roc).count Event.openRun = 1 := by
  have hz : (m.best_params.map fun kv => Event.logParamRat kv.1 kv.2).count Event.openRun = 0 :=
    List.count_eq_zero.mpr
      (not_mem_map_logParamRat (by intro n v hx; exact Event.noConfusion hx) _)
  simp [successTrace, List.count_cons, List.count_append, hz]

lemma count_closeRun_successTrace (uri : String) (features target : List String)
    (p a b roc : Rat) (m : CVModel) :
    (successTrace uri features target p a b m roc).count Event.closeRun = 1 := by
  have hz : (m.best_params.map fun kv => Event.logParamRat kv.1 kv.2).count Event.closeRun = 0 :=
    List.count_eq_zero.mpr
      (not_mem_map_logParamRat (by intro n v hx; exact Event.noConfusion hx) _)
  simp [successTrace, List.count_cons, List.count_append, hz]

lemma filter_isModelLog_successTrace (uri : String) (features target : List String)
    (p a b roc : Rat) (m : CVModel) :
    (successTrace uri features target p a b m roc).filter Event.isModelLog =
      [Event.logModel modelArtifactName] := by
  simp [successTrace, List.filter_append, filter_isModelLog_map, Event.isModelLog]

/-- C6: the value logged as `ROC_AUC_test` is exactly `roc_auc_score` applied to
the held-out test target column(s) and the best estimator's predictions on the
test features (the test table with the target dropped). -/
theorem claim_C6_test_roc_logged (ext : Externals) (uri : String) (cfg : RawConfig) (p : Rat)
    (features target : List String) (ps : ParamSpace) (loans : DataFrame) (m : CVModel)
    (hf : cfg.features = some features) (ht : cfg.target = some target)
    (hps : cfg.parameter_space = some ps)
    (hread : ext.readParquet uri = Except.ok loans)
    (hfit : (mkCrossval ps).fit
        (ext.cvScore (((splitStep loans p).1.select (features ++ target)).dropCols target)
          (targetValues ((splitStep loans p).1.select (features ++ target)) target)) =
      Except.ok m) :
    ∃ tr, fitSklearnCrossvalidator ext uri cfg p = (tr, Except.ok m) ∧
      Event.logMetric "ROC_AUC_test"
        (ext.rocAuc (targetValues ((splitStep loans p).2.select (features ++ target)) target)
          (ext.predict m.best_params
            (((splitStep loans p).2.select (features ++ target)).dropCols target))) ∈ tr := by
  refine ⟨_, run_success_eq ext uri cfg p features target ps loans m hf ht hps hread hfit, ?_⟩
  simp [successTrace]

theorem claim_C6_witness :
    (cfgEx.features = some [ "f1", "f2"] ∧ cfgEx.target = some [ "y"] ∧
      cfgEx.parameter_space = some psEx ∧
      extEx.readParquet "dbfs:loans" = Except.ok loansEx ∧
      (mkCrossval psEx).fit
          (extEx.cvScore
            (((splitStep loansEx (4/5)).1.select ([ "f1", "f2"] ++ [ "y"])).dropCols [ "y"])
            (targetValues ((splitStep loansEx (4/5)).1.select ([ "f1", "f2"] ++ [ "y"])) [ "y"])) =
        Except.ok mEx) ∧
    ∃ tr, fitSklearnCrossvalidator extEx "dbfs:loans" cfgEx (4/5) = (tr, Except.ok mEx) ∧
      Event.logMetric "ROC_AUC_test"
        (extEx.rocAuc
          (targetValues ((splitStep loansEx (4/5)).2.select ([ "f1", "f2"] ++ [ "y"])) [ "y"])
          (extEx.predict mEx.best_params
            (((splitStep loansEx (4/5)).2.select ([ "f1", "f2"] ++ [ "y"])).dropCols [ "y"]))) ∈ tr :=
  ⟨⟨rfl, rfl, rfl, rfl, rfl⟩,
    claim_C6_test_roc_logged extEx "dbfs:loans" cfgEx (4/5) [ "f1", "f2"] [ "y"] psEx loansEx mEx
      rfl rfl rfl rfl rfl⟩

/-- C7: the in-memory tables materialized for the train and test partitions
carry exactly the configured `features` columns plus the `target` column(s)
and nothing else, and every materialization event in the run body does so. -/
theorem claim_C7_materialized_columns (ext : Externals) (cfg : RawConfig) (p : Rat)
    (features target : List String) (loans : DataFrame) :
    (materialized loans p features target).1.cols = features ++ target ∧
    (materialized loans p features target).2.cols = features ++ target ∧
    (∀ c, c ∈ (materialized loans p features target).1.cols ↔ (c ∈ features ∨ c ∈ target)) ∧
    (∀ c, c ∈ (materialized loans p features target).2.cols ↔ (c ∈ features ∨ c ∈ target)) ∧
    Event.toPandas (features ++ target) ∈
      (runBody ext cfg p features target (splitStep loans p).1 (splitStep loans p).2).1 ∧
    ∀ cs, Event.toPandas cs ∈
        (runBody ext cfg p features target (splitStep loans p).1 (splitStep loans p).2).1 →
      cs = features ++ target := by
  refine ⟨rfl, rfl, ?_, ?_, ?_, ?_⟩
  · intro c
    simp [materialized, DataFrame.select]
  · intro c
    simp [materialized, DataFrame.select]
  · exact (toPandas_mem_runBody ext cfg p features target _ _).1
  · exact (toPandas_mem_runBody ext cfg p features target _ _).2

theorem claim_C7_witness :
    (materialized loansEx (4/5) [ "f1", "f2"] [ "y"]).1.cols = [ "f1", "f2"] ++ [ "y"] ∧
    (materialized loansEx (4/5) [ "f1", "f2"] [ "y"]).2.cols = [ "f1", "f2"] ++ [ "y"] ∧
    (∀ c, c ∈ (materialized loansEx (4/5) [ "f1", "f2"] [ "y"]).1.cols ↔
      (c ∈ [ "f1", "f2"] ∨ c ∈ [ "y"])) ∧
    (∀ c, c ∈ (materialized loansEx (4/5) [ "f1", "f2"] [ "y"]).2.cols ↔
      (c ∈ [ "f1", "f2"] ∨ c ∈ [ "y"])) ∧
    Event.toPandas ([ "f1", "f2"] ++ [ "y"]) ∈
      (runBody extEx cfgEx (4/5) [ "f1", "f2"] [ "y"]
        (splitStep loansEx (4/5)).1 (splitStep loansEx (4/5)).2).1 ∧
    ∀ cs, Event.toPandas cs ∈
        (runBody extEx cfgEx (4/5) [ "f1", "f2"] [ "y"]
          (splitStep loansEx (4/5)).1 (splitStep loansEx (4/5)).2).1 →
      cs = [ "f1", "f2"] ++ [ "y"] :=
  claim_C7_materialized_columns extEx cfgEx (4/5) [ "f1", "f2"] [ "y"] loansEx

/-- C8: a successful invocation logs, inside exactly one tracker run, the two
row counts, the feature list, the split proportion, every best
hyperparameter, both ROC-AUC metrics, and exactly one model artifact whose
name carries the classifier's type name. -/
theorem claim_C8_logging (ext : Externals) (uri : String) (cfg : RawConfig) (p : Rat)
    (features target : List String) (ps : ParamSpace) (loans : DataFrame) (m : CVModel)
    (hf : cfg.features = some features) (ht : cfg.target = some target)
    (hps : cfg.parameter_space = some ps)
    (hread : ext.readParquet uri = Except.ok loans)
    (hfit : (mkCrossval ps).fit
        (ext.cvScore (((splitStep loans p).1.select (features ++ target)).dropCols target)
          (targetValues ((splitStep loans p).1.select (features ++ target)) target)) =
      Except.ok m) :
    ∃ tr, fitSklearnCrossvalidator ext uri cfg p = (tr, Except.ok m) ∧
      tr.count Event.openRun = 1 ∧ tr.count Event.closeRun = 1 ∧
      Event.logMetric "training_nrows" ((splitStep loans p).1.rows.length : Rat) ∈ tr ∧
      Event.logMetric "test_nrows" ((splitStep loans p).2.rows.length : Rat) ∈ tr ∧
      Event.logParamFeatures features ∈ tr ∧
      Event.logParamRat "split_prop" p ∈ tr ∧
      (∀ kv ∈ m.best_params, Event.logParamRat kv.1 kv.2 ∈ tr) ∧
      Event.logMetric "ROC_AUC_train" m.best_score ∈ tr ∧
      Event.logMetric "ROC_AUC_test"
        (ext.rocAuc (targetValues ((splitStep loans p).2.select (features ++ target)) target)
          (ext.predict m.best_params
            (((splitStep loans p).2.select (features ++ target)).dropCols target))) ∈ tr ∧
      tr.filter Event.isModelLog = [Event.logModel modelArtifactName] ∧
      modelArtifactName = "best-5-fold-cross-validated-" ++ "LGBMClassifier" := by
  refine ⟨_, run_success_eq ext uri cfg p features target ps loans m hf ht hps hread hfit,
    count_openRun_successTrace uri features target p _ _ _ m,
    count_closeRun_successTrace uri features target p _ _ _ m,
    ?_, ?_, ?_, ?_, ?_, ?_, ?_,
    filter_isModelLog_successTrace uri features target p _ _ _ m, by decide⟩
  · simp [successTrace]
  · simp [successTrace]
  · simp [successTrace]
  · simp [successTrace]
  · intro kv hkv
    simp only [successTrace, List.mem_cons, List.mem_append, List.mem_map]
    refine Or.inr (Or.inr (Or.inr (Or.inr (Or.inr (Or.inr (Or.inr (Or.inr (Or.inr
      (Or.inr (Or.inr (Or.inl ?_)))))))))))
    exact ⟨kv, hkv, rfl⟩
  · simp [successTrace]
  · simp [successTrace]

theorem claim_C8_witness :
    (cfgEx.features = some [ "f1", "f2"] ∧ cfgEx.target = some [ "y"] ∧
      cfgEx.parameter_space = some psEx ∧
      extEx.readParquet "dbfs:loans" = Except.ok loansEx ∧
      (mkCrossval psEx).fit
          (extEx.cvScore
            (((splitStep loansEx (4/5)).1.select ([ "f1", "f2"] ++ [ "y"])).dropCols [ "y"])
            (targetValues ((splitStep loansEx (4/5)).1.select ([ "f1", "f2"] ++ [ "y"])) [ "y"])) =
        Except.ok mEx) ∧
    ∃ tr, fitSklearnCrossvalidator extEx "dbfs:loans" cfgEx (4/5) = (tr, Except.ok mEx) ∧
      tr.count Event.openRun = 1 ∧ tr.count Event.closeRun = 1 ∧
      Event.logMetric "training_nrows" ((splitStep loansEx (4/5)).1.rows.length : Rat) ∈ tr ∧
      Event.logMetric "test_nrows" ((splitStep loansEx (4/5)).2.rows.length : Rat) ∈ tr ∧
      Event.logParamFeatures [ "f1", "f2"] ∈ tr ∧
      Event.logParamRat "split_prop" (4/5) ∈ tr ∧
      (∀ kv ∈ mEx.best_params, Event.logParamRat kv.1 kv.2 ∈ tr) ∧
      Event.logMetric "ROC_AUC_train" mEx.best_score ∈ tr ∧
      Event.logMetric "ROC_AUC_test"
        (extEx.rocAuc
          (targetValues ((splitStep loansEx (4/5)).2.select ([ "f1", "f2"] ++ [ "y"])) [ "y"])
          (extEx.predict mEx.best_params
            (((splitStep loansEx (4/5)).2.select ([ "f1", "f2"] ++ [ "y"])).dropCols [ "y"]))) ∈ tr ∧
      tr.filter Event.isModelLog = [Event.logModel modelArtifactName] ∧
      modelArtifactName = "best-5-fold-cross-validated-" ++ "LGBMClassifier" :=
  ⟨⟨rfl, rfl, rfl, rfl, rfl⟩,
    claim_C8_logging extEx "dbfs:loans" cfgEx (4/5) [ "f1", "f2"] [ "y"] psEx loansEx mEx
      rfl rfl rfl rfl rfl⟩

/-- C9: the `gamma` candidates are searched under the classifier parameter
`min_split_gain`; every grid key carries the `__` prefix produced by the
empty pipeline-stage name; no grid key is named `gamma`; and on success the
logged best-parameter keys are exactly these prefixed names. -/
theorem claim_C9_param_grid_keys (ps : ParamSpace) (score : Combo → Rat) (m : CVModel)
    (h : (mkCrossval ps).fit score = Except.ok m) :
    (mkParamGrid ps).map Prod.fst =
      [ "__max_depth", "__min_split_gain", "__min_child_weight",
        "__learning_rate", "__colsample_bytree", "__num_leaves"] ∧
    ( "__min_split_gain", ps.gamma) ∈ mkParamGrid ps ∧
    (∀ e ∈ mkParamGrid ps, e.1 ≠ "gamma") ∧
    m.best_params.map Prod.fst =
      [ "__max_depth", "__min_split_gain", "__min_child_weight",
        "__learning_rate", "__colsample_bytree", "__num_leaves"] := by
  refine ⟨rfl, by simp [mkParamGrid], ?_, ?_⟩
  · intro e he
    simp only [mkParamGrid, List.mem_cons, List.not_mem_nil, or_false] at he
    rcases he with h1 | h1 | h1 | h1 | h1 | h1 <;> subst h1 <;> simp
  · have hb := (fit_ok h).1
    have hg := parameterSampler_subset _ _ _ _ hb
    exact (mem_gridCombos hg).1

theorem claim_C9_witness :
    (mkCrossval psEx).fit scoreEx = Except.ok mEx ∧
    ((mkParamGrid psEx).map Prod.fst =
        [ "__max_depth", "__min_split_gain", "__min_child_weight",
          "__learning_rate", "__colsample_bytree", "__num_leaves"] ∧
      ( "__min_split_gain", psEx.gamma) ∈ mkParamGrid psEx ∧
      (∀ e ∈ mkParamGrid psEx, e.1 ≠ "gamma") ∧
      mEx.best_params.map Prod.fst =
        [ "__max_depth", "__min_split_gain", "__min_child_weight",
          "__learning_rate", "__colsample_bytree", "__num_leaves"]) :=
  ⟨rfl, claim_C9_param_grid_keys psEx scoreEx mEx rfl⟩

/-- C10: whenever the tracker run is opened, the trace decomposes as a prefix
without logging calls, the run open, a middle section containing no further
run open or close, and the run close as the final event — on every exit path,
error included; so nothing is logged outside the single run's scope. -/
theorem claim_C10_run_scoped (ext : Externals) (uri : String) (cfg : RawConfig) (p : Rat)
    (h : Event.openRun ∈ (fitSklearnCrossvalidator ext uri cfg p).1) :
    ∃ pre mid, (fitSklearnCrossvalidator ext uri cfg p).1 =
        pre ++ Event.openRun :: (mid ++ [Event.closeRun]) ∧
      (∀ e ∈ pre, e.isLog = false) ∧
      Event.openRun ∉ mid ∧ Event.closeRun ∉ mid := by
  obtain ⟨cf, ct, cps⟩ := cfg
  cases cf with
  | none => simp [fitSklearnCrossvalidator, getKey] at h
  | some features =>
    cases ct with
    | none => simp [fitSklearnCrossvalidator, getKey] at h
    | some target =>
      cases hr : ext.readParquet uri with
      | error e => simp [fitSklearnCrossvalidator, getKey, hr] at h
      | ok loans =>
        refine ⟨[Event.readDataset uri],
          (runBody ext ⟨some features, some target, cps⟩ p features target
            (splitStep loans p).1 (splitStep loans p).2).1, ?_, ?_, ?_, ?_⟩
        · simp [fitSklearnCrossvalidator, getKey, hr, withRun]
        · intro e he
          simp only [List.mem_singleton] at he
          subst he
          rfl
        · exact openRun_not_mem_runBody ext _ p features target _ _
        · exact closeRun_not_mem_runBody ext _ p features target _ _

theorem claim_C10_witness :
    Event.openRun ∈ (fitSklearnCrossvalidator extEx "dbfs:loans" cfgEx (4/5)).1 ∧
    ∃ pre mid, (fitSklearnCrossvalidator extEx "dbfs:loans" cfgEx (4/5)).1 =
        pre ++ Event.openRun :: (mid ++ [Event.closeRun]) ∧
      (∀ e ∈ pre, e.isLog = false) ∧
      Event.openRun ∉ mid ∧ Event.closeRun ∉ mid :=
  ⟨by decide, claim_C10_run_scoped extEx "dbfs:loans" cfgEx (4/5) (by decide)⟩

end TrainLgbm
